import Mathlib

/-!
Shallow embedding of `common/task_executor/src/lib.rs` (lighthouse).

The Rust module provides a `TaskExecutor` facade over a tokio runtime:
three spawn contracts (exit-coupled `spawn`, exit-decoupled
`spawn_without_exit`, blocking `spawn_blocking`), a panic monitor
(`spawn_monitor`) that escalates panics into a shutdown request, and
per-name prometheus instrumentation.

The embedding is trace-style: each Rust function is modelled as a pure
function from its inputs and an environment (runtime liveness, metrics
registry availability) to a record of observable effects — metric
operations, log entries, shutdown reasons offered to the channel — plus
the value returned to the caller.  Rust panic unwinding is modelled
explicitly: a combinator closure placed after a panicking future is
skipped, and the panic surfaces as a `JoinError` at the join handle.

The `metrics` module (`mod metrics;`) is not part of the sources; its
operations are modelled from the spec where noted.
-/

/-- `ShutdownReason` from the source: Success or Failure with a static
message. -/
inductive ShutdownReason where
  | Success : String → ShutdownReason
  | Failure : String → ShutdownReason
deriving DecidableEq, Repr

/-- `ShutdownReason::message` from the source. -/
def ShutdownReason.message : ShutdownReason → String
  | .Success m => m
  | .Failure m => m

/-- slog levels used by this module: `trace!`, `debug!`, `crit!`. -/
inductive LogLevel where
  | trace
  | debug
  | crit
deriving DecidableEq, Repr

/-- A structured log event: level, message, key/value fields. -/
structure LogEntry where
  level : LogLevel
  msg : String
  fields : List (String × String)
deriving DecidableEq, Repr

/-- A slog logger: its accumulated context fields.  `log.new(o!(k => v))`
appends a context pair; emission is tracked separately as `LogEntry`s. -/
structure Logger where
  context : List (String × String)
deriving DecidableEq, Repr

/-- `slog::Logger::new` with one key/value pair: child logger with the
pair appended to the context; the parent logger value is not touched. -/
def Logger.child (log : Logger) (kv : String × String) : Logger :=
  ⟨log.context ++ [kv]⟩

/-- Metric operations performed against the (spec-modelled) registry:
increment / decrement of the per-name async and blocking in-flight
gauges, and a duration observation into the per-name blocking
histogram. -/
inductive MetricOp where
  | incAsync : String → MetricOp
  | decAsync : String → MetricOp
  | incBlocking : String → MetricOp
  | decBlocking : String → MetricOp
  | observeBlocking : String → Nat → MetricOp
deriving DecidableEq, Repr

/-- Modelled from the spec: the environment a spawn call runs in.
`runtimeAlive` is whether `self.runtime.upgrade()` succeeds;
the three availability predicates are whether the metrics registry can
produce the named handle (`metrics::get_int_gauge` returning `Some`,
and the gauge/histogram lookups inside `inc_gauge_vec`,
`dec_gauge_vec`, `start_timer_vec` succeeding).  The registry "never
fails the caller's task on registry errors" (spec §4.5): an unavailable
handle makes the operation a silent no-op. -/
structure Env where
  runtimeAlive : Bool
  asyncGaugeAvail : String → Bool
  blockingGaugeAvail : String → Bool
  blockingHistAvail : String → Bool

/-- Observable effects of a call or of a spawned future's execution. -/
structure Effects where
  ops : List MetricOp
  logs : List LogEntry
  offers : List ShutdownReason
deriving DecidableEq, Repr

/-- `tokio::task::JoinError` as observed by this module: either a panic
(with its payload, `some s` when the payload downcasts to a plain
`&str`) or cancellation. -/
inductive JoinError where
  | panic : Option String → JoinError
  | cancelled : JoinError
deriving DecidableEq, Repr

/-- The behaviour of a task when driven to completion: it either
produces a value or panics (with an optional plain-string payload). -/
inductive TaskRun (R : Type) where
  | value : R → TaskRun R
  | panic : Option String → TaskRun R
deriving DecidableEq, Repr

/-- `Future::map` / `FutureExt::map` on a task's behaviour: a panic
propagates, a value is transformed. -/
def TaskRun.map {α β : Type} (f : α → β) : TaskRun α → TaskRun β
  | .value v => .value (f v)
  | .panic p => .panic p

/-- What a spawned future's join handle resolves to together with the
effects the future performed while running. -/
structure FutureRun (R : Type) where
  result : Except JoinError R
  ops : List MetricOp
  logs : List LogEntry

/-- The bounded mpsc shutdown channel as the monitor sees it. -/
structure Channel where
  capacity : Nat
  queued : List ShutdownReason
  closed : Bool
deriving DecidableEq, Repr

/-- `Sender::try_send`: enqueue if the channel is open and not full,
otherwise leave the channel unchanged and report failure. -/
def Channel.trySend (c : Channel) (r : ShutdownReason) : Channel × Bool :=
  if c.closed = true ∨ c.capacity ≤ c.queued.length then (c, false)
  else ({ c with queued := c.queued ++ [r] }, true)

/-- Apply a list of offered reasons to the channel, one `try_send`
each, ignoring each result (the monitor writes `let _ = ...`). -/
def Channel.applyOffers (c : Channel) : List ShutdownReason → Channel
  | [] => c
  | r :: rs => (c.trySend r).1.applyOffers rs

/-- `panic.downcast_ref::<&str>().unwrap_or(&"<none>")` from
`spawn_monitor`: the payload when it is a plain string, the sentinel
`"<none>"` otherwise.  Total: extraction never fails. -/
def panicMessage : Option String → String
  | some s => s
  | none => "<none>"

/-- The body of the monitor task spawned by `spawn_monitor` (lib.rs
lines 98–115), as a function of the join result it awaits.  On `Ok`
nothing happens; on a cancelled `JoinError`, `try_into_panic` fails and
nothing happens; on a panic it emits the `crit!` entry and offers
`ShutdownReason::Failure("Panic (fatal error)")` once via `try_send`. -/
def monitorBody {R : Type} (name : String) (res : Except JoinError R) : Effects :=
  match res with
  | .ok _ => ⟨[], [], []⟩
  | .error .cancelled => ⟨[], [], []⟩
  | .error (.panic p) =>
      ⟨[],
       [⟨LogLevel.crit, "Task panic. This is a bug!",
         [("task_name", name), ("message", panicMessage p),
          ("advice", "Please check above for a backtrace and notify the developers")]⟩],
       [ShutdownReason.Failure "Panic (fatal error)"]⟩

/-- `spawn_monitor` (lib.rs lines 89–122): if the runtime upgrades, the
monitor body runs on the eventual join result; otherwise only a debug
log entry is produced and the join handle is dropped unobserved. -/
def spawn_monitor_effects {R : Type} (env : Env) (name : String)
    (res : Except JoinError R) : Effects :=
  if env.runtimeAlive then monitorBody name res
  else ⟨[], [⟨LogLevel.debug, "Couldn't spawn monitor task. Runtime shutting down", []⟩], []⟩

/-- The future built inside `spawn_handle` (lib.rs lines 196–209):
`select(task, exit).then(dec)`.  If the exit future resolves first the
result is `none` (debug log), else the task's value (trace log); the
`then` closure decrements the async gauge.  If the task itself panics
while being polled, the panic unwinds through `select` and `then` — the
closure is skipped, no decrement, and the join handle reports the
panic. -/
def spawn_handle_future {R : Type} (name : String) (task : TaskRun R)
    (exitFirst : Bool) : FutureRun (Option R) :=
  if exitFirst then
    ⟨.ok none, [MetricOp.decAsync name],
     [⟨LogLevel.debug, "Async task shutdown, exit received", [("task", name)]⟩]⟩
  else
    match task with
    | .value v =>
        ⟨.ok (some v), [MetricOp.decAsync name],
         [⟨LogLevel.trace, "Async task completed", [("task", name)]⟩]⟩
    | .panic p => ⟨.error (.panic p), [], []⟩

/-- Concatenation of two effect records in execution order. -/
def Effects.append (a b : Effects) : Effects :=
  ⟨a.ops ++ b.ops, a.logs ++ b.logs, a.offers ++ b.offers⟩

/-- Result of a `spawn_handle`-style call: the value the returned join
handle (if any) eventually resolves to, whether the unit of work was
handed to `runtime.spawn`, and all observable effects. -/
structure HandleRun (R : Type) where
  handle : Option (Except JoinError R)
  scheduled : Bool
  eff : Effects

/-- `spawn_handle` (lib.rs lines 185–221) together with the execution
of the future it schedules.  Structure of the source call: if the async
gauge handle is unavailable, return `None` with no effect at all (the
task is dropped unscheduled); else increment the gauge, then try to
upgrade the runtime — on failure log debug and return `None` (the built
future is dropped, its decrement never runs); on success schedule the
future and return its join handle. -/
def spawn_handle_run {R : Type} (env : Env) (name : String) (task : TaskRun R)
    (exitFirst : Bool) : HandleRun (Option R) :=
  if env.asyncGaugeAvail name then
    if env.runtimeAlive then
      let fr := spawn_handle_future name task exitFirst
      ⟨some fr.result, true, ⟨MetricOp.incAsync name :: fr.ops, fr.logs, []⟩⟩
    else
      ⟨none, false,
       ⟨[MetricOp.incAsync name],
        [⟨LogLevel.debug, "Couldn't spawn task. Runtime shutting down", []⟩], []⟩⟩
  else
    ⟨none, false, ⟨[], [], []⟩⟩

/-- `spawn` (lib.rs lines 133–137) together with the execution of what
it schedules: `spawn_handle`, and when a handle is returned,
`spawn_monitor` observing it. -/
def spawn_effects (env : Env) (name : String) (task : TaskRun Unit)
    (exitFirst : Bool) : Effects :=
  let hr := spawn_handle_run env name task exitFirst
  match hr.handle with
  | some r => hr.eff.append (spawn_monitor_effects env name r)
  | none => hr.eff

/-- Outcome class of a dispatched unit of work (spec §3, "Spawned Task
Record"). -/
inductive Outcome where
  | notDispatched
  | completed
  | cancelled
  | faulted
deriving DecidableEq, Repr

/-- Result of a spawn call that returns nothing to the caller. -/
structure PlainRun where
  scheduled : Bool
  outcome : Outcome
  eff : Effects

/-- `spawn_without_exit` (lib.rs lines 148–167) together with the
execution of the future it schedules.  The built future is
`task.then(dec)`: it is not selected against the exit future and no
monitor is attached, so `exitFired` (the ambient state of the exit
signal) is never consulted.  If the task panics, the panic unwinds past
the `then` closure: the decrement is skipped and the task outcome is a
fault. If the gauge handle is unavailable nothing at all happens; if
the runtime is gone the incremented gauge is never decremented. -/
def spawn_without_exit_run (env : Env) (name : String) (task : TaskRun Unit)
    (exitFired : Bool) : PlainRun :=
  if env.asyncGaugeAvail name then
    if env.runtimeAlive then
      match task with
      | .value _ =>
          ⟨true, Outcome.completed,
           ⟨[MetricOp.incAsync name, MetricOp.decAsync name], [], []⟩⟩
      | .panic _ =>
          ⟨true, Outcome.faulted, ⟨[MetricOp.incAsync name], [], []⟩⟩
    else
      ⟨false, Outcome.notDispatched,
       ⟨[MetricOp.incAsync name],
        [⟨LogLevel.debug, "Couldn't spawn task. Runtime shutting down", []⟩], []⟩⟩
  else
    ⟨false, Outcome.notDispatched, ⟨[], [], []⟩⟩

/-- tokio's `Display` for a `JoinError`, as logged via `%e`. -/
def JoinError.display : JoinError → String
  | .panic _ => "task panicked"
  | .cancelled => "task was cancelled"

/-- `spawn_blocking_handle` (lib.rs lines 229–267) together with the
execution of the wrapper future it returns.  `t0` is the time the call
runs (the histogram timer starts then, before the runtime upgrade
check, and the blocking gauge is incremented then); `t1` is the time
`join_handle.await` completes.  On a dead runtime the call returns
`None`: the early return drops the just-started timer, which records a
zero-duration observation, and the incremented gauge is never
decremented.  On a live runtime the wrapper awaits the join handle —
a panic inside the blocking closure surfaces there as a `JoinError`
rather than unwinding the wrapper — then drops the timer (one
observation of `t1 - t0`) and decrements the gauge, in all outcomes. -/
def spawn_blocking_handle_run {R : Type} (env : Env) (name : String)
    (task : TaskRun R) (t0 t1 : Nat) : HandleRun R :=
  let incOps := if env.blockingGaugeAvail name then [MetricOp.incBlocking name] else []
  if env.runtimeAlive then
    let res : Except JoinError R :=
      match task with
      | .value v => .ok v
      | .panic p => .error (.panic p)
    let lg : List LogEntry :=
      match task with
      | .value _ => [⟨LogLevel.trace, "Blocking task completed", [("task", name)]⟩]
      | .panic p =>
          [⟨LogLevel.debug, "Blocking task ended unexpectedly",
            [("error", JoinError.display (.panic p))]⟩]
    ⟨some res, true,
     ⟨incOps
        ++ (if env.blockingHistAvail name then [MetricOp.observeBlocking name (t1 - t0)] else [])
        ++ (if env.blockingGaugeAvail name then [MetricOp.decBlocking name] else []),
      lg, []⟩⟩
  else
    ⟨none, false,
     ⟨incOps
        ++ (if env.blockingHistAvail name then [MetricOp.observeBlocking name (t0 - t0)] else []),
      [⟨LogLevel.debug, "Couldn't spawn task. Runtime shutting down", []⟩], []⟩⟩

/-- `spawn_blocking` (lib.rs lines 171–178) together with the execution
of what it schedules: `spawn_blocking_handle`, and when a handle is
returned, `spawn_monitor` observing it. -/
def spawn_blocking_effects (env : Env) (name : String) (task : TaskRun Unit)
    (t0 t1 : Nat) : Effects :=
  let br := spawn_blocking_handle_run env name task t0 t1
  match br.handle with
  | some r => br.eff.append (spawn_monitor_effects env name r)
  | none => br.eff

/-- The `TaskExecutor` facade, polymorphic in the handle types it
merely stores and clones: the weak runtime reference, the exit
receiver, and the shutdown-reason sender. -/
structure TaskExecutor (ρ ε σ : Type) where
  runtime : ρ
  exit : ε
  signal_tx : σ
  log : Logger

/-- `clone_with_name` (lib.rs lines 63–70): a new executor sharing
clones of the runtime reference, exit receiver and shutdown sender,
with a child logger extended by a `"service"` context field. -/
def TaskExecutor.clone_with_name {ρ ε σ : Type} (self : TaskExecutor ρ ε σ)
    (service_name : String) : TaskExecutor ρ ε σ :=
  ⟨self.runtime, self.exit, self.signal_tx, self.log.child ("service", service_name)⟩

/-- `spawn_ignoring_error` (lib.rs lines 78–84): literally
`self.spawn(task.map(|_| ()), name)` for a task returning
`Result<(), ()>`. -/
def spawn_ignoring_error_effects (env : Env) (name : String)
    (task : TaskRun (Except Unit Unit)) (exitFirst : Bool) : Effects :=
  spawn_effects env name (task.map fun _ => ()) exitFirst

/-- Count of a given metric op in a trace. -/
def opCount (o : MetricOp) : List MetricOp → Nat
  | [] => 0
  | x :: xs => (if x = o then 1 else 0) + opCount o xs

/-- Net async in-flight gauge change for a name over a trace. -/
def asyncNet (name : String) (ops : List MetricOp) : Int :=
  (opCount (MetricOp.incAsync name) ops : Int) - (opCount (MetricOp.decAsync name) ops : Int)

/-- Net blocking in-flight gauge change for a name over a trace. -/
def blockingNet (name : String) (ops : List MetricOp) : Int :=
  (opCount (MetricOp.incBlocking name) ops : Int) - (opCount (MetricOp.decBlocking name) ops : Int)

/-- Whether a metric op touches the metrics of a given name. -/
def MetricOp.touches (name : String) : MetricOp → Bool
  | .incAsync n => n = name
  | .decAsync n => n = name
  | .incBlocking n => n = name
  | .decBlocking n => n = name
  | .observeBlocking n _ => n = name

/-- The durations observed into the blocking histogram of a name, in
order, over a trace of metric ops. -/
def observations (name : String) (ops : List MetricOp) : List Nat :=
  ops.filterMap fun o =>
    match o with
    | .observeBlocking n d => if n = name then some d else none
    | _ => none

/-- A live environment: runtime up, every metrics handle available. -/
def envLive : Env := ⟨true, fun _ => true, fun _ => true, fun _ => true⟩

/-- Environment whose weak runtime reference no longer upgrades. -/
def envDead : Env := ⟨false, fun _ => true, fun _ => true, fun _ => true⟩

/-- Environment where the async gauge lookup fails for every name. -/
def envNoGauge : Env := ⟨true, fun _ => false, fun _ => true, fun _ => true⟩

/-- Claim C2: the spec says that when the metrics registry cannot
produce a gauge handle for a name, the spawn contracts skip
instrumentation but still dispatch the task.  The code instead drops
the task entirely: `spawn_handle` returns `None` from its outer
`if let` without ever calling `runtime.spawn`, and `spawn_without_exit`
does nothing at all, so the task never executes.  This theorem
evaluates the code at the failing input (live runtime, async gauge
unavailable, task returning a value, name "peer-sync"). -/
theorem C2_task_dropped_on_missing_gauge :
    (spawn_handle_run envNoGauge "peer-sync" (TaskRun.value ()) false).scheduled = false ∧
    (spawn_handle_run envNoGauge "peer-sync" (TaskRun.value ()) false).handle = none ∧
    (spawn_handle_run envNoGauge "peer-sync" (TaskRun.value ()) false).eff = ⟨[], [], []⟩ ∧
    (spawn_without_exit_run envNoGauge "peer-sync" (TaskRun.value ()) false).scheduled = false ∧
    (spawn_without_exit_run envNoGauge "peer-sync" (TaskRun.value ()) false).outcome =
      Outcome.notDispatched := by
  refine ⟨rfl, rfl, rfl, rfl, rfl⟩

/-- Claim C5: `clone_with_name` returns a facade sharing the weak
runtime reference, the exit receiver and the shutdown sender, whose
logger context is the original's extended by a `("service", name)`
field; the original facade's logger context is unchanged (the operation
builds a new value) and, provided it carried no "service" field before,
it still carries none. -/
theorem C5_clone_with_name {ρ ε σ : Type} (e : TaskExecutor ρ ε σ) (nm : String)
    (h : ∀ v, ("service", v) ∉ e.log.context) :
    (e.clone_with_name nm).runtime = e.runtime ∧
    (e.clone_with_name nm).exit = e.exit ∧
    (e.clone_with_name nm).signal_tx = e.signal_tx ∧
    (e.clone_with_name nm).log.context = e.log.context ++ [("service", nm)] ∧
    ("service", nm) ∈ (e.clone_with_name nm).log.context ∧
    ("service", nm) ∉ e.log.context := by
  refine ⟨rfl, rfl, rfl, rfl, ?_, h nm⟩
  simp [TaskExecutor.clone_with_name, Logger.child]

/-- Witness for C5 at a concrete facade with an empty logger context
and service name "sync". -/
theorem C5_clone_with_name_witness :
    ((⟨0, 0, 0, ⟨[]⟩⟩ : TaskExecutor Nat Nat Nat).clone_with_name "sync").runtime = 0 ∧
    ((⟨0, 0, 0, ⟨[]⟩⟩ : TaskExecutor Nat Nat Nat).clone_with_name "sync").exit = 0 ∧
    ((⟨0, 0, 0, ⟨[]⟩⟩ : TaskExecutor Nat Nat Nat).clone_with_name "sync").signal_tx = 0 ∧
    ((⟨0, 0, 0, ⟨[]⟩⟩ : TaskExecutor Nat Nat Nat).clone_with_name "sync").log.context =
      [] ++ [("service", "sync")] ∧
    ("service", "sync") ∈
      ((⟨0, 0, 0, ⟨[]⟩⟩ : TaskExecutor Nat Nat Nat).clone_with_name "sync").log.context ∧
    ("service", "sync") ∉ (Logger.mk []).context :=
  C5_clone_with_name ⟨0, 0, 0, ⟨[]⟩⟩ "sync" (fun v => by simp)

/-- Claim C8: `spawn_without_exit` is exit-decoupled and unmonitored:
its behaviour is identical for every state of the exit signal (the task
is never cancelled by the exit firing), its outcome is never
`cancelled`, and it offers no shutdown reason even when the task
panics. -/
theorem C8_without_exit_decoupled (env : Env) (name : String) (task : TaskRun Unit)
    (b1 b2 : Bool) :
    spawn_without_exit_run env name task b1 = spawn_without_exit_run env name task b2 ∧
    (spawn_without_exit_run env name task b1).outcome ≠ Outcome.cancelled ∧
    (spawn_without_exit_run env name task b1).eff.offers = [] := by
  refine ⟨rfl, ?_, ?_⟩ <;>
    · unfold spawn_without_exit_run
      cases hA : env.asyncGaugeAvail name <;> cases hR : env.runtimeAlive <;>
        cases task <;> simp

/-- Claim C9 counterexample: on a panic whose payload is the plain
string "disk exploded", the monitor does not offer
`Failure("disk exploded")` — the reason sent carries the fixed message
`"Panic (fatal error)"`, not the extracted diagnostic. -/
theorem C9_diagnostic_not_sent :
    (monitorBody "x"
        (Except.error (JoinError.panic (some "disk exploded")) : Except JoinError Unit)).offers
      ≠ [ShutdownReason.Failure "disk exploded"] ∧
    (monitorBody "x"
        (Except.error (JoinError.panic (some "disk exploded")) : Except JoinError Unit)).offers
      = [ShutdownReason.Failure "Panic (fatal error)"] := by
  refine ⟨by decide, rfl⟩

/-- Claim C9 (amended): on a fault the monitor extracts a diagnostic
equal to the panic payload when it is a plain string and the sentinel
`"<none>"` otherwise (the extraction is total), emits one
highest-severity (crit) log entry naming the task and carrying that
diagnostic, and then attempts to send
`Failure("Panic (fatal error)")` — a fixed message — through the
shutdown sender; the diagnostic appears only in the log entry. -/
theorem C9_fault_escalation {R : Type} (name : String) (p : Option String) (s : String) :
    (monitorBody name (Except.error (JoinError.panic p) : Except JoinError R)).logs =
      [⟨LogLevel.crit, "Task panic. This is a bug!",
        [("task_name", name), ("message", panicMessage p),
         ("advice", "Please check above for a backtrace and notify the developers")]⟩] ∧
    (monitorBody name (Except.error (JoinError.panic p) : Except JoinError R)).offers =
      [ShutdownReason.Failure "Panic (fatal error)"] ∧
    panicMessage (some s) = s ∧
    panicMessage none = "<none>" := by
  refine ⟨rfl, rfl, rfl, rfl⟩

/-- Claim C10: `spawn_ignoring_error` is observationally the same as
`spawn` of the task with its `Result<(), ()>` mapped to `()`: both
`Ok(())` and `Err(())` are discarded identically (both reduce to the
same `spawn` of a unit-valued task), and a task-level `Err` never
reaches the fault-escalation path — no shutdown reason is offered. -/
theorem C10_spawn_ignoring_error (env : Env) (name : String)
    (task : TaskRun (Except Unit Unit)) (exitFirst : Bool) :
    spawn_ignoring_error_effects env name task exitFirst =
      spawn_effects env name (task.map fun _ => ()) exitFirst ∧
    (∀ e : Except Unit Unit,
      spawn_ignoring_error_effects env name (TaskRun.value e) exitFirst =
        spawn_effects env name (TaskRun.value ()) exitFirst) ∧
    (spawn_ignoring_error_effects env name (TaskRun.value (Except.error ())) exitFirst).offers
      = [] := by
  refine ⟨rfl, fun e => rfl, ?_⟩
  unfold spawn_ignoring_error_effects spawn_effects spawn_handle_run TaskRun.map
  cases hA : env.asyncGaugeAvail name <;> cases hR : env.runtimeAlive <;>
    cases exitFirst <;>
      simp [spawn_handle_future, spawn_monitor_effects, monitorBody, Effects.append, hR]

/-- Claim C1 counterexample: with the runtime gone but the async gauge
handle available, the exit-coupled spawn contract called with name
"peer-sync" does change a gauge for "peer-sync": the increment executed
at line 211 before the upgrade check is left behind, so the gauges are
not unchanged as the claim states. -/
theorem C1_gauge_leak_on_dead_runtime :
    (spawn_effects envDead "peer-sync" (TaskRun.value ()) false).ops =
      [MetricOp.incAsync "peer-sync"] ∧
    ((spawn_effects envDead "peer-sync" (TaskRun.value ()) false).ops.filter
      (fun o => o.touches "peer-sync")) ≠ [] := by
  exact ⟨rfl, by decide⟩

/-- Claim C1 (amended): for every spawn contract, any task and any
name, if the weak runtime reference cannot be upgraded the call returns
no error value to the caller, offers no shutdown reason, and produces
exactly one debug-level log entry when anything happens at all; the
gauges for the name are untouched when the metrics handles are
unavailable, but when they are available the per-name in-flight gauge
is incremented at dispatch with no matching decrement (and the blocking
variant's just-started timer records one zero-duration histogram
observation on the early return). -/
theorem C1_no_upgrade (env : Env) (name : String) (task : TaskRun Unit)
    (exitFirst exitFired : Bool) (t0 t1 : Nat) (h : env.runtimeAlive = false) :
    spawn_effects env name task exitFirst =
      ⟨(if env.asyncGaugeAvail name then [MetricOp.incAsync name] else []),
       (if env.asyncGaugeAvail name
        then [⟨LogLevel.debug, "Couldn't spawn task. Runtime shutting down", []⟩]
        else []),
       []⟩ ∧
    spawn_without_exit_run env name task exitFired =
      ⟨false, Outcome.notDispatched,
       ⟨(if env.asyncGaugeAvail name then [MetricOp.incAsync name] else []),
        (if env.asyncGaugeAvail name
         then [⟨LogLevel.debug, "Couldn't spawn task. Runtime shutting down", []⟩]
         else []),
        []⟩⟩ ∧
    spawn_blocking_effects env name task t0 t1 =
      ⟨(if env.blockingGaugeAvail name then [MetricOp.incBlocking name] else [])
         ++ (if env.blockingHistAvail name then [MetricOp.observeBlocking name 0] else []),
       [⟨LogLevel.debug, "Couldn't spawn task. Runtime shutting down", []⟩], []⟩ := by
  unfold spawn_effects spawn_handle_run spawn_without_exit_run spawn_blocking_effects
    spawn_blocking_handle_run
  cases hA : env.asyncGaugeAvail name <;> cases hB : env.blockingGaugeAvail name <;>
    cases hH : env.blockingHistAvail name <;> simp [h]

/-- Witness for C1 at a dead-runtime environment with every metrics
handle available, name "peer-sync". -/
theorem C1_no_upgrade_witness :
    spawn_effects envDead "peer-sync" (TaskRun.value ()) false =
      ⟨[MetricOp.incAsync "peer-sync"],
       [⟨LogLevel.debug, "Couldn't spawn task. Runtime shutting down", []⟩], []⟩ ∧
    spawn_without_exit_run envDead "peer-sync" (TaskRun.value ()) false =
      ⟨false, Outcome.notDispatched,
       ⟨[MetricOp.incAsync "peer-sync"],
        [⟨LogLevel.debug, "Couldn't spawn task. Runtime shutting down", []⟩], []⟩⟩ ∧
    spawn_blocking_effects envDead "peer-sync" (TaskRun.value ()) 0 0 =
      ⟨[MetricOp.incBlocking "peer-sync", MetricOp.observeBlocking "peer-sync" 0],
       [⟨LogLevel.debug, "Couldn't spawn task. Runtime shutting down", []⟩], []⟩ := by
  have h := C1_no_upgrade envDead "peer-sync" (TaskRun.value ()) false false 0 0 rfl
  simpa [envDead] using h

/-- Claim C3: under a live runtime with the async gauge available, the
exit-coupled contract resolves to `Some` of the task's own output when
the task wins the race, to `None` (cancelled, never the task's output)
when the exit signal fires first — whatever the task would have done —
and in both cases decrements the async in-flight gauge exactly once. -/
theorem C3_exit_coupled_race (R : Type) (env : Env) (name : String) (v : R)
    (task : TaskRun R)
    (hA : env.runtimeAlive = true) (hG : env.asyncGaugeAvail name = true) :
    (spawn_handle_run env name (TaskRun.value v) false).handle =
      some (Except.ok (some v)) ∧
    (spawn_handle_run env name task true).handle = some (Except.ok none) ∧
    opCount (MetricOp.decAsync name)
      (spawn_handle_run env name (TaskRun.value v) false).eff.ops = 1 ∧
    opCount (MetricOp.decAsync name)
      (spawn_handle_run env name task true).eff.ops = 1 := by
  unfold spawn_handle_run spawn_handle_future
  simp [hA, hG, opCount]

/-- Witness for C3 at a live environment, name "a", value 37, with the
exit-first branch exercised on a panicking task. -/
theorem C3_exit_coupled_race_witness :
    (spawn_handle_run envLive "a" (TaskRun.value (37 : Nat)) false).handle =
      some (Except.ok (some 37)) ∧
    (spawn_handle_run envLive "a" (TaskRun.panic none : TaskRun Nat) true).handle =
      some (Except.ok none) ∧
    opCount (MetricOp.decAsync "a")
      (spawn_handle_run envLive "a" (TaskRun.value (37 : Nat)) false).eff.ops = 1 ∧
    opCount (MetricOp.decAsync "a")
      (spawn_handle_run envLive "a" (TaskRun.panic none : TaskRun Nat) true).eff.ops = 1 :=
  C3_exit_coupled_race Nat envLive "a" 37 (TaskRun.panic none) rfl rfl

/-- Claim C4: with a live runtime, the monitor offers a Failure-tagged
shutdown reason if and only if the monitored unit terminated via a
panic, never more than once per fault (the offer list is empty or the
singleton `Failure("Panic (fatal error)")`), and the single `try_send`
is best-effort: a full or closed channel is left unchanged with no
retry, while an open channel with room accepts the offer. -/
theorem C4_escalation_exactly_on_fault {R : Type} (env : Env) (name : String)
    (res : Except JoinError R) (c : Channel) (hA : env.runtimeAlive = true) :
    ((spawn_monitor_effects env name res).offers = [] ∨
      (spawn_monitor_effects env name res).offers =
        [ShutdownReason.Failure "Panic (fatal error)"]) ∧
    ((spawn_monitor_effects env name res).offers ≠ [] ↔
      ∃ p, res = Except.error (JoinError.panic p)) ∧
    (∀ p, res = Except.error (JoinError.panic p) →
      (spawn_monitor_effects env name res).offers =
        [ShutdownReason.Failure "Panic (fatal error)"]) ∧
    (c.closed = true ∨ c.capacity ≤ c.queued.length →
      Channel.applyOffers c (spawn_monitor_effects env name res).offers = c) ∧
    (c.closed = false → c.queued.length < c.capacity →
      Channel.applyOffers c (spawn_monitor_effects env name res).offers =
        ⟨c.capacity, c.queued ++ (spawn_monitor_effects env name res).offers, false⟩) := by
  obtain ⟨cap, q, cl⟩ := c
  have hm : spawn_monitor_effects env name res = monitorBody name res := by
    simp [spawn_monitor_effects, hA]
  rw [hm]
  cases res with
  | ok r =>
      refine ⟨Or.inl rfl, by simp [monitorBody], ?_, ?_, ?_⟩
      · intro p hp; exact absurd hp (by simp)
      · intro hfull; simp [monitorBody, Channel.applyOffers]
      · intro h1 h2; simp at h1; simp [monitorBody, Channel.applyOffers, h1]
  | error je =>
      cases je with
      | cancelled =>
          refine ⟨Or.inl rfl, by simp [monitorBody], ?_, ?_, ?_⟩
          · intro p hp; exact absurd hp (by simp)
          · intro hfull; simp [monitorBody, Channel.applyOffers]
          · intro h1 h2; simp at h1; simp [monitorBody, Channel.applyOffers, h1]
      | panic p =>
          refine ⟨Or.inr rfl, by simp [monitorBody], fun p' _ => rfl, ?_, ?_⟩
          · intro hfull
            simp only [monitorBody, Channel.applyOffers, Channel.trySend]
            rw [if_pos hfull]
          · intro h1 h2
            simp at h1 h2
            simp [monitorBody, Channel.applyOffers, Channel.trySend, h1,
              not_le.mpr h2]

/-- Witness for C4 at a live environment, a panic with payload "boom"
and a zero-capacity (always full) channel: the monitor offers exactly
one Failure reason and the full channel drops it unchanged. -/
theorem C4_escalation_exactly_on_fault_witness :
    (spawn_monitor_effects envLive "x"
        (Except.error (JoinError.panic (some "boom")) : Except JoinError Unit)).offers =
      [ShutdownReason.Failure "Panic (fatal error)"] ∧
    Channel.applyOffers ⟨0, [], false⟩
        (spawn_monitor_effects envLive "x"
          (Except.error (JoinError.panic (some "boom")) : Except JoinError Unit)).offers =
      ⟨0, [], false⟩ :=
  ⟨(C4_escalation_exactly_on_fault envLive "x"
      (Except.error (JoinError.panic (some "boom"))) ⟨0, [], false⟩ rfl).2.2.1
      (some "boom") rfl,
   (C4_escalation_exactly_on_fault envLive "x"
      (Except.error (JoinError.panic (some "boom"))) ⟨0, [], false⟩ rfl).2.2.2.1
      (Or.inr (by decide))⟩

/-- Claim C6 counterexample: an exit-coupled async task that faults
(panics) before the exit signal leaves a net gauge change of +1 for its
name — the panic unwinds past the `then` closure holding the decrement,
so the decrement never runs, contradicting "decremented by exactly 1
... regardless of whether it ... faults". -/
theorem C6_async_fault_skips_decrement :
    asyncNet "a" (spawn_effects envLive "a" (TaskRun.panic none) false).ops = 1 ∧
    opCount (MetricOp.decAsync "a")
      (spawn_effects envLive "a" (TaskRun.panic none) false).ops = 0 := by
  exact ⟨by decide, by decide⟩

/-- Claim C6 (amended): for every dispatched spawn invocation, the
relevant in-flight gauge is incremented by exactly 1 at dispatch and
decremented by exactly 1 at completion — for the async variants when
the unit completes with a value or is cancelled by the exit signal, and
for the blocking variant in all outcomes including faults — so the net
change is 0 in those cases; an async unit that faults unwinds past the
decrement, leaving a net change of +1 for that invocation. -/
theorem C6_gauge_pairing (env : Env) (name : String) (task : TaskRun Unit)
    (p : Option String) (exitFired : Bool) (t0 t1 : Nat)
    (hA : env.runtimeAlive = true) (hG : env.asyncGaugeAvail name = true)
    (hBG : env.blockingGaugeAvail name = true) :
    asyncNet name (spawn_effects env name (TaskRun.value ()) false).ops = 0 ∧
    asyncNet name (spawn_effects env name task true).ops = 0 ∧
    asyncNet name (spawn_effects env name (TaskRun.panic p) false).ops = 1 ∧
    asyncNet name (spawn_without_exit_run env name (TaskRun.value ()) exitFired).eff.ops = 0 ∧
    asyncNet name (spawn_without_exit_run env name (TaskRun.panic p) exitFired).eff.ops = 1 ∧
    blockingNet name (spawn_blocking_effects env name task t0 t1).ops = 0 := by
  unfold spawn_effects spawn_handle_run spawn_handle_future spawn_without_exit_run
    spawn_blocking_effects spawn_blocking_handle_run
  cases hH : env.blockingHistAvail name <;> cases task <;>
    simp [hA, hG, hBG, asyncNet, blockingNet, opCount, Effects.append,
      spawn_monitor_effects, monitorBody]

/-- Witness for C6 at a live environment, name "a", payload-free panic,
times 2 and 7. -/
theorem C6_gauge_pairing_witness :
    asyncNet "a" (spawn_effects envLive "a" (TaskRun.value ()) false).ops = 0 ∧
    asyncNet "a" (spawn_effects envLive "a" (TaskRun.value ()) true).ops = 0 ∧
    asyncNet "a" (spawn_effects envLive "a" (TaskRun.panic none) false).ops = 1 ∧
    asyncNet "a" (spawn_without_exit_run envLive "a" (TaskRun.value ()) false).eff.ops = 0 ∧
    asyncNet "a" (spawn_without_exit_run envLive "a" (TaskRun.panic none) false).eff.ops = 1 ∧
    blockingNet "a" (spawn_blocking_effects envLive "a" (TaskRun.value ()) 2 7).ops = 0 :=
  C6_gauge_pairing envLive "a" (TaskRun.value ()) none false 2 7 rfl rfl rfl

/-- Claim C7: under a live runtime with the blocking handles available,
`spawn_blocking_handle` records exactly one histogram observation for
the name, spanning from dispatch time `t0` (the timer starts before the
work is handed over, so queueing is included) to join-completion time
`t1`, and the blocking in-flight gauge is incremented and decremented
exactly once each — net 0 — in all outcomes, including when the
dispatched work faults. -/
theorem C7_blocking_span_and_gauge (env : Env) (name : String) (task : TaskRun Unit)
    (t0 t1 : Nat) (hA : env.runtimeAlive = true)
    (hBG : env.blockingGaugeAvail name = true)
    (hBH : env.blockingHistAvail name = true) :
    observations name (spawn_blocking_handle_run env name task t0 t1).eff.ops =
      [t1 - t0] ∧
    opCount (MetricOp.incBlocking name)
      (spawn_blocking_handle_run env name task t0 t1).eff.ops = 1 ∧
    opCount (MetricOp.decBlocking name)
      (spawn_blocking_handle_run env name task t0 t1).eff.ops = 1 ∧
    blockingNet name (spawn_blocking_handle_run env name task t0 t1).eff.ops = 0 := by
  unfold spawn_blocking_handle_run
  cases task <;>
    simp [hA, hBG, hBH, observations, opCount, blockingNet]

/-- Witness for C7 at a live environment, name "a", a faulting blocking
closure, dispatch time 2 and completion time 7: one observation of 5. -/
theorem C7_blocking_span_and_gauge_witness :
    observations "a"
      (spawn_blocking_handle_run envLive "a" (TaskRun.panic (some "boom") : TaskRun Unit) 2 7).eff.ops =
      [7 - 2] ∧
    opCount (MetricOp.incBlocking "a")
      (spawn_blocking_handle_run envLive "a" (TaskRun.panic (some "boom") : TaskRun Unit) 2 7).eff.ops = 1 ∧
    opCount (MetricOp.decBlocking "a")
      (spawn_blocking_handle_run envLive "a" (TaskRun.panic (some "boom") : TaskRun Unit) 2 7).eff.ops = 1 ∧
    blockingNet "a"
      (spawn_blocking_handle_run envLive "a" (TaskRun.panic (some "boom") : TaskRun Unit) 2 7).eff.ops = 0 :=
  C7_blocking_span_and_gauge envLive "a" (TaskRun.panic (some "boom")) 2 7 rfl rfl rfl
